import Mathlib

/-!
Verification of the precious-metals-india price pipeline.

The definitions below are a shallow embedding of the JavaScript sources:
the server file (express server plus the MCXApi class) and the browser
client (class PreciousMetalsApp). Randomness (Math.random draws) is made
explicit as function parameters, network requests become an explicit
outcome value, and the in-memory price table becomes an association list
from city id to bundle. Prices are integers (Math.round results); all
intermediate arithmetic is exact rational arithmetic, with Math.round
modelled as the function jsRound below (floor of x + 1/2, which agrees
with JS Math.round on the nonnegative values occurring here).
-/

/-- JS Math.round for the nonnegative values used in this program:
round half up, that is floor of q + 1/2. -/
def jsRound (q : ℚ) : ℤ := (q + 1/2).floor

/-- A metro city record: id, display name, state (server METRO_CITIES). -/
structure City where
  id : String
  name : String
  state : String
deriving DecidableEq

/-- The fixed list of 20 metro cities from the server source. -/
def METRO_CITIES : List City :=
  [ ⟨"mumbai", "Mumbai", "Maharashtra"⟩
  , ⟨"delhi", "Delhi", "Delhi"⟩
  , ⟨"bangalore", "Bangalore", "Karnataka"⟩
  , ⟨"kolkata", "Kolkata", "West Bengal"⟩
  , ⟨"chennai", "Chennai", "Tamil Nadu"⟩
  , ⟨"hyderabad", "Hyderabad", "Telangana"⟩
  , ⟨"pune", "Pune", "Maharashtra"⟩
  , ⟨"ahmedabad", "Ahmedabad", "Gujarat"⟩
  , ⟨"jaipur", "Jaipur", "Rajasthan"⟩
  , ⟨"surat", "Surat", "Gujarat"⟩
  , ⟨"lucknow", "Lucknow", "Uttar Pradesh"⟩
  , ⟨"kanpur", "Kanpur", "Uttar Pradesh"⟩
  , ⟨"nagpur", "Nagpur", "Maharashtra"⟩
  , ⟨"indore", "Indore", "Madhya Pradesh"⟩
  , ⟨"thane", "Thane", "Maharashtra"⟩
  , ⟨"bhopal", "Bhopal", "Madhya Pradesh"⟩
  , ⟨"visakhapatnam", "Visakhapatnam", "Andhra Pradesh"⟩
  , ⟨"pimpri", "Pimpri-Chinchwad", "Maharashtra"⟩
  , ⟨"patna", "Patna", "Bihar"⟩
  , ⟨"vadodara", "Vadodara", "Gujarat"⟩ ]

/-- Gold purity price set: the three karat entries of a city bundle. -/
structure GoldPrices where
  k24 : ℤ
  k22 : ℤ
  k18 : ℤ
deriving DecidableEq

/-- Silver purity price set: the two fineness entries of a city bundle. -/
structure SilverPrices where
  s999 : ℤ
  s925 : ℤ
deriving DecidableEq

/-- Trend direction values used by getRandomTrend and getTrend. -/
inductive Trend where
  | up
  | down
  | stable
deriving DecidableEq

/-- One city entry of the server price table (the per-city object built by
initializePrices and convertToLocationPrices). The lastUpdated ISO string
is modelled as a natural-number timestamp. The raw mcxData echo field of
the live path is omitted: it is never read by any component modelled here. -/
structure CityPriceBundle where
  cityInfo : City
  gold : GoldPrices
  silver : SilverPrices
  lastUpdated : ℕ
  trendGold : Trend
  trendSilver : Trend
deriving DecidableEq

/-- The server price table currentPrices: city id keyed association list. -/
abbrev PriceStore := List (String × CityPriceBundle)

/-- JS object property lookup on a string-keyed literal object,
first matching key wins (JS object literals have unique keys). -/
def assocLookup {β : Type} : List (String × β) → String → Option β
  | [], _ => none
  | e :: rest, key => if key = e.1 then some e.2 else assocLookup rest key

/-- The BASE_PRICES table of the server (INR per 10g gold, per kg silver). -/
structure BasePrices where
  gold24 : ℤ
  gold22 : ℤ
  gold18 : ℤ
  silver999 : ℤ
  silver925 : ℤ

/-- Initial BASE_PRICES values from the server source. -/
def BASE_PRICES : BasePrices := ⟨105500, 96700, 79100, 124000, 114600⟩

/-- The cityVariations table inside generateCityPrice: it lists 10 of the
20 metro cities; every other city falls back to multiplier 1.0. -/
def cityVariations : List (String × ℚ) :=
  [ ("mumbai", 1.02)
  , ("delhi", 1.01)
  , ("bangalore", 1.015)
  , ("kolkata", 1.025)
  , ("chennai", 1.01)
  , ("hyderabad", 1.005)
  , ("pune", 1.018)
  , ("ahmedabad", 0.995)
  , ("jaipur", 0.98)
  , ("surat", 0.99) ]

/-- Lookup in cityVariations with the JS default (or-else 1.0). -/
def cityVariation (cityId : String) : ℚ :=
  (assocLookup cityVariations cityId).getD 1

/-- generateCityPrice from the server: basePrice times city variation times
a random jitter 0.995 + r * 0.01 where r is the Math.random draw, rounded.
The draw r is an explicit parameter of the embedding. -/
def generateCityPrice (basePrice : ℚ) (cityId : String) (r : ℚ) : ℤ :=
  jsRound (basePrice * cityVariation cityId * (0.995 + r * 0.01))

/-- Gold karat labels, for indexing per-price random draws. -/
inductive GoldKarat where
  | k24
  | k22
  | k18
deriving DecidableEq

/-- Silver purity labels, for indexing per-price random draws. -/
inductive SilverPurity where
  | s999
  | s925
deriving DecidableEq

/-- Random draws consumed by initializePrices: one jitter draw per city and
purity, and one trend pick per city and commodity (getRandomTrend modelled
as the drawn Trend itself). -/
structure InitDraws where
  gold : String → GoldKarat → ℚ
  silver : String → SilverPurity → ℚ
  trendGold : String → Trend
  trendSilver : String → Trend

/-- The bundle built for one city by initializePrices. -/
def initBundle (bp : BasePrices) (d : InitDraws) (now : ℕ) (city : City) :
    CityPriceBundle :=
  { cityInfo := city
  , gold :=
      { k24 := generateCityPrice (bp.gold24 : ℚ) city.id (d.gold city.id .k24)
      , k22 := generateCityPrice (bp.gold22 : ℚ) city.id (d.gold city.id .k22)
      , k18 := generateCityPrice (bp.gold18 : ℚ) city.id (d.gold city.id .k18) }
  , silver :=
      { s999 := generateCityPrice (bp.silver999 : ℚ) city.id (d.silver city.id .s999)
      , s925 := generateCityPrice (bp.silver925 : ℚ) city.id (d.silver city.id .s925) }
  , lastUpdated := now
  , trendGold := d.trendGold city.id
  , trendSilver := d.trendSilver city.id }

/-- initializePrices of the server: one bundle per metro city, keyed by id. -/
def initializePrices (bp : BasePrices) (d : InitDraws) (now : ℕ) : PriceStore :=
  METRO_CITIES.map fun city => (city.id, initBundle bp d now city)

/-- One gold price step of updatePricesSimulated: perturb the previous
stored price by changePercent = (r - 0.5) * 0.004 (r the Math.random draw),
re-rounded. -/
def simGoldStep (prev : ℤ) (r : ℚ) : ℤ :=
  jsRound ((prev : ℚ) * (1 + (r - 0.5) * 0.004))

/-- One silver price step of updatePricesSimulated: perturb the previous
stored price by changePercent = (r - 0.5) * 0.006, re-rounded. -/
def simSilverStep (prev : ℤ) (r : ℚ) : ℤ :=
  jsRound ((prev : ℚ) * (1 + (r - 0.5) * 0.006))

/-- Random draws consumed by one updatePricesSimulated tick. -/
structure SimDraws where
  gold : String → GoldKarat → ℚ
  silver : String → SilverPurity → ℚ
  trendGold : String → Trend
  trendSilver : String → Trend

/-- The in-place mutation updatePricesSimulated performs on one bundle. -/
def simUpdateBundle (b : CityPriceBundle) (cityId : String) (d : SimDraws)
    (now : ℕ) : CityPriceBundle :=
  { b with
    gold :=
      { k24 := simGoldStep b.gold.k24 (d.gold cityId .k24)
      , k22 := simGoldStep b.gold.k22 (d.gold cityId .k22)
      , k18 := simGoldStep b.gold.k18 (d.gold cityId .k18) }
  , silver :=
      { s999 := simSilverStep b.silver.s999 (d.silver cityId .s999)
      , s925 := simSilverStep b.silver.s925 (d.silver cityId .s925) }
  , trendGold := d.trendGold cityId
  , trendSilver := d.trendSilver cityId
  , lastUpdated := now }

/-- Replace the entry of one key of the store (in-place JS mutation of
currentPrices at a city id). -/
def updateAssoc (store : PriceStore) (cityId : String)
    (f : CityPriceBundle → CityPriceBundle) : PriceStore :=
  store.map fun e => if e.1 = cityId then (e.1, f e.2) else e

/-- updatePricesSimulated of the server: for each metro city, random-walk
every stored price from its previous value and refresh trend and timestamp. -/
def updatePricesSimulated (store : PriceStore) (d : SimDraws) (now : ℕ) :
    PriceStore :=
  METRO_CITIES.foldl
    (fun s city => updateAssoc s city.id fun b => simUpdateBundle b city.id d now)
    store

/-- ASCII lower-casing as used by JS toLowerCase on the identifiers here. -/
def jsToLower (s : String) : String := String.mk (s.data.map Char.toLower)

/-- ASCII upper-casing as used by JS toUpperCase on commodity symbols. -/
def jsToUpper (s : String) : String := String.mk (s.data.map Char.toUpper)

/-- Helper for JS String.includes over character lists. -/
def charListIncludes (needle : List Char) : List Char → Bool
  | [] => needle.isEmpty
  | c :: rest => needle.isPrefixOf (c :: rest) || charListIncludes needle rest

/-- JS String.includes: does s contain pat as a substring. -/
def strIncludes (s pat : String) : Bool := charListIncludes pat.data s.data

/-- A parsed MCX quote record (the object built in parseMCXData and
getFallbackData). The openPrice and closePrice fields model the JS fields
named open and close; the ISO timestamp is a natural number. -/
structure Quote where
  symbol : String
  ltp : ℚ
  change : ℚ
  changePercent : ℚ
  high : ℚ
  low : ℚ
  openPrice : ℚ
  closePrice : ℚ
  volume : ℤ
  timestamp : ℕ
deriving DecidableEq

/-- The commodity data object returned by the MCX fetch pipeline. -/
structure MCXData where
  gold : Option Quote
  silver : Option Quote
deriving DecidableEq

/-- One raw record of the upstream JSON array. A none field models a
missing or non-numeric value, which parseFloat-or-zero defaults to 0. -/
structure MCXItem where
  symbol : String
  ltp : Option ℚ
  change : Option ℚ
  changePercent : Option ℚ
  high : Option ℚ
  low : Option ℚ
  openPrice : Option ℚ
  closePrice : Option ℚ
  volume : Option ℤ

/-- The quote parseMCXData builds from one raw item: defensive defaulting
of every missing or non-numeric field to 0. -/
def quoteOfItem (item : MCXItem) (now : ℕ) : Quote :=
  { symbol := item.symbol
  , ltp := item.ltp.getD 0
  , change := item.change.getD 0
  , changePercent := item.changePercent.getD 0
  , high := item.high.getD 0
  , low := item.low.getD 0
  , openPrice := item.openPrice.getD 0
  , closePrice := item.closePrice.getD 0
  , volume := item.volume.getD 0
  , timestamp := now }

/-- parseMCXData of MCXApi: scan the array, keeping the last item whose
upper-cased symbol contains GOLD as the gold quote and the last whose
symbol contains SILVER as the silver quote; items with an empty (falsy)
symbol are skipped. -/
def parseMCXData (items : List MCXItem) (now : ℕ) : MCXData :=
  items.foldl
    (fun acc item =>
      if item.symbol = "" then acc
      else
        let symbol := jsToUpper item.symbol
        let acc1 :=
          if strIncludes symbol ("GOLD") then
            { acc with gold := some (quoteOfItem item now) }
          else acc
        if strIncludes symbol ("SILVER") then
          { acc1 with silver := some (quoteOfItem item now) }
        else acc1)
    ⟨none, none⟩

/-- Random draws consumed by getFallbackData of MCXApi (each a Math.random
value in the unit interval). -/
structure FallbackDraws where
  goldLtp : ℚ
  goldChange : ℚ
  goldChangePercent : ℚ
  silverLtp : ℚ
  silverChange : ℚ
  silverChangePercent : ℚ

/-- getFallbackData of MCXApi: built-in synthetic gold and silver quotes
around fixed centre prices, always present. -/
def getFallbackData (r : FallbackDraws) (now : ℕ) : MCXData :=
  { gold := some
      { symbol := "GOLD"
      , ltp := 105200 + (r.goldLtp - 0.5) * 1000
      , change := (r.goldChange - 0.5) * 500
      , changePercent := (r.goldChangePercent - 0.5) * 2
      , high := 105800
      , low := 104600
      , openPrice := 105000
      , closePrice := 105100
      , volume := 12500
      , timestamp := now }
  , silver := some
      { symbol := "SILVER"
      , ltp := 123800 + (r.silverLtp - 0.5) * 2000
      , change := (r.silverChange - 0.5) * 1000
      , changePercent := (r.silverChangePercent - 0.5) * 3
      , high := 124500
      , low := 123100
      , openPrice := 123500
      , closePrice := 123700
      , volume := 8500
      , timestamp := now } }

/-- Transport outcome of the upstream HTTP request made by fetchLiveData.
The ok case is a successfully transported and JSON-decoded array of raw
records; transportError covers timeout, non-success status and a payload
without the expected d field (every path that reaches the catch block). -/
inductive FetchOutcome where
  | ok (items : List MCXItem)
  | transportError

/-- fetchLiveData of MCXApi: parse a successful response; on any transport
error the catch block substitutes getFallbackData, so the function itself
never signals failure to its caller. -/
def fetchLiveData (o : FetchOutcome) (fb : FallbackDraws) (now : ℕ) : MCXData :=
  match o with
  | .ok items => parseMCXData items now
  | .transportError => getFallbackData fb now

/-- The cityMultipliers table of MCXApi.getCityMultiplier: all 20 cities. -/
def cityMultipliers : List (String × ℚ) :=
  [ ("mumbai", 1.025)
  , ("delhi", 1.015)
  , ("bangalore", 1.020)
  , ("kolkata", 1.030)
  , ("chennai", 1.015)
  , ("hyderabad", 1.010)
  , ("pune", 1.022)
  , ("ahmedabad", 0.995)
  , ("jaipur", 0.985)
  , ("surat", 0.990)
  , ("lucknow", 1.005)
  , ("kanpur", 1.000)
  , ("nagpur", 1.002)
  , ("indore", 0.998)
  , ("thane", 1.020)
  , ("bhopal", 1.005)
  , ("visakhapatnam", 1.012)
  , ("pimpri", 1.018)
  , ("patna", 1.008)
  , ("vadodara", 0.995) ]

/-- getCityMultiplier of MCXApi with the JS default (or-else 1.000). -/
def getCityMultiplier (cityId : String) : ℚ :=
  (assocLookup cityMultipliers cityId).getD 1

/-- getFallbackGoldPrices of MCXApi (used when the gold quote is absent or
has a falsy ltp). -/
def getFallbackGoldPrices (cityId : String) : GoldPrices :=
  { k24 := jsRound (105200 * getCityMultiplier cityId)
  , k22 := jsRound (105200 * 0.917 * getCityMultiplier cityId)
  , k18 := jsRound (105200 * 0.750 * getCityMultiplier cityId) }

/-- getFallbackSilverPrices of MCXApi. -/
def getFallbackSilverPrices (cityId : String) : SilverPrices :=
  { s999 := jsRound (123800 * getCityMultiplier cityId)
  , s925 := jsRound (123800 * 0.925 * getCityMultiplier cityId) }

/-- calculateGoldPrices of MCXApi: karat conversion from the 995-fineness
MCX price times the city multiplier; the JS guard (no quote or falsy ltp)
falls back to getFallbackGoldPrices. -/
def calculateGoldPrices (g : Option Quote) (cityId : String) : GoldPrices :=
  match g with
  | none => getFallbackGoldPrices cityId
  | some q =>
    if q.ltp = 0 then getFallbackGoldPrices cityId
    else
      { k24 := jsRound (q.ltp * (24/23.88) * getCityMultiplier cityId)
      , k22 := jsRound (q.ltp * (22/23.88) * getCityMultiplier cityId)
      , k18 := jsRound (q.ltp * (18/23.88) * getCityMultiplier cityId) }

/-- calculateSilverPrices of MCXApi. -/
def calculateSilverPrices (s : Option Quote) (cityId : String) : SilverPrices :=
  match s with
  | none => getFallbackSilverPrices cityId
  | some q =>
    if q.ltp = 0 then getFallbackSilverPrices cityId
    else
      { s999 := jsRound (q.ltp * getCityMultiplier cityId)
      , s925 := jsRound (q.ltp * 0.925 * getCityMultiplier cityId) }

/-- getTrend of MCXApi: sign of changePercent with a 0.1 dead band. -/
def getTrend (changePercent : ℚ) : Trend :=
  if changePercent > 0.1 then .up
  else if changePercent < -0.1 then .down
  else .stable

/-- The bundle convertToLocationPrices builds for one city. -/
def convertBundle (m : MCXData) (city : City) (now : ℕ) : CityPriceBundle :=
  { cityInfo := city
  , gold := calculateGoldPrices m.gold city.id
  , silver := calculateSilverPrices m.silver city.id
  , lastUpdated := now
  , trendGold := getTrend ((m.gold.map Quote.changePercent).getD 0)
  , trendSilver := getTrend ((m.silver.map Quote.changePercent).getD 0) }

/-- convertToLocationPrices of MCXApi: one derived bundle per city. -/
def convertToLocationPrices (m : MCXData) (cities : List City) (now : ℕ) :
    PriceStore :=
  cities.map fun city => (city.id, convertBundle m city now)

/-- Server scheduler state: the useMCXData toggle, the pending re-enable
timer delay of the cooldown setTimeout (in milliseconds, none when no
timer is pending), and the price table. -/
structure SchedulerState where
  useMCXData : Bool
  mcxReenableDelay : Option ℕ
  currentPrices : PriceStore

/-- Result of one fast tick: the new scheduler state and whether a
priceUpdate snapshot was broadcast to the connected clients. -/
structure TickResult where
  state : SchedulerState
  broadcast : Bool

/-- updatePricesFromMCX of the server. If the fetched data carries a gold
or a silver quote, the whole table is rebuilt from it by
convertToLocationPrices and broadcast. Otherwise the code throws, and the
catch block disables the live source, schedules the 5-minute re-enable
setTimeout, runs updatePricesSimulated and broadcasts through it. -/
def updatePricesFromMCX (st : SchedulerState) (o : FetchOutcome)
    (fb : FallbackDraws) (d : SimDraws) (now : ℕ) : TickResult :=
  let mcxData := fetchLiveData o fb now
  if mcxData.gold.isSome || mcxData.silver.isSome then
    { state := { st with currentPrices := convertToLocationPrices mcxData METRO_CITIES now }
    , broadcast := true }
  else
    { state :=
        { useMCXData := false
        , mcxReenableDelay := some (5 * 60 * 1000)
        , currentPrices := updatePricesSimulated st.currentPrices d now }
    , broadcast := true }

/-- updatePrices of the server, the fast-tick entry point: live path when
useMCXData is set, otherwise the simulated random walk (which broadcasts). -/
def updatePrices (st : SchedulerState) (o : FetchOutcome) (fb : FallbackDraws)
    (d : SimDraws) (now : ℕ) : TickResult :=
  if st.useMCXData then updatePricesFromMCX st o fb d now
  else
    { state := { st with currentPrices := updatePricesSimulated st.currentPrices d now }
    , broadcast := true }

/-- GET /api/prices/:cityId response. -/
inductive CityPricesResponse where
  | ok (b : CityPriceBundle)
  | notFound
deriving DecidableEq

/-- The /api/prices/:cityId handler: a pure read of the store; the pair
also returns the store to state that the handler leaves it unchanged. -/
def getPricesByCityId (store : PriceStore) (cityId : String) :
    CityPricesResponse × PriceStore :=
  match assocLookup store cityId with
  | some b => (.ok b, store)
  | none => (.notFound, store)

/-- One client chart series (this.chartData.gold or .silver): parallel
timestamp and price arrays and the configured cap. -/
structure ChartSeries where
  timestamps : List String
  prices : List ℤ
  maxPoints : ℕ
deriving DecidableEq

/-- The append step of updateChartData: push label and price at the tail,
then if the timestamps length exceeds maxPoints shift both heads off. -/
def chartAppend (s : ChartSeries) (label : String) (price : ℤ) : ChartSeries :=
  let ts := s.timestamps ++ [label]
  let ps := s.prices ++ [price]
  if ts.length > s.maxPoints then
    { s with timestamps := ts.tail, prices := ps.tail }
  else
    { s with timestamps := ts, prices := ps }

/-- The initial chart series of the client constructor: empty, cap 60. -/
def initialChartSeries : ChartSeries := ⟨[], [], 60⟩

/-- Client model state of class PreciousMetalsApp (the DOM and chart
instance handles are not state of the reconciliation logic modelled here). -/
structure ClientState where
  allPrices : PriceStore
  previousPrices : PriceStore
  goldChart : ChartSeries
  silverChart : ChartSeries
  retryCount : ℕ
deriving DecidableEq

/-- updateChartData of the client: early return when the table is empty,
otherwise append the cross-city averages (rounded) of gold 24k and
silver 999 to the two series. -/
def updateChartData (st : ClientState) (label : String) : ClientState :=
  if st.allPrices.length = 0 then st
  else
    let n : ℚ := st.allPrices.length
    let avgGold := jsRound ((st.allPrices.map fun e => (e.2.gold.k24 : ℚ)).sum / n)
    let avgSilver := jsRound ((st.allPrices.map fun e => (e.2.silver.s999 : ℚ)).sum / n)
    { st with
      goldChart := chartAppend st.goldChart label avgGold
    , silverChart := chartAppend st.silverChart label avgSilver }

/-- Commodity tag of a significant-change toast. -/
inductive Metal where
  | gold
  | silver
deriving DecidableEq

/-- A significant-change toast of checkSignificantChanges: city display
name, commodity, and whether the reference price increased. -/
structure Notification where
  cityName : String
  metal : Metal
  increased : Bool
deriving DecidableEq

/-- The toasts checkSignificantChanges emits for one city: the gold 24k
and silver 999 reference purities, each firing when the absolute relative
change against the previous bundle strictly exceeds the 0.005 threshold. -/
def cityNotifications (current previous : CityPriceBundle) : List Notification :=
  let goldChange := |(current.gold.k24 : ℚ) - (previous.gold.k24 : ℚ)| / (previous.gold.k24 : ℚ)
  let goldList :=
    if goldChange > 0.005 then
      [⟨current.cityInfo.name, .gold, current.gold.k24 > previous.gold.k24⟩]
    else []
  let silverChange := |(current.silver.s999 : ℚ) - (previous.silver.s999 : ℚ)| / (previous.silver.s999 : ℚ)
  let silverList :=
    if silverChange > 0.005 then
      [⟨current.cityInfo.name, .silver, current.silver.s999 > previous.silver.s999⟩]
    else []
  goldList ++ silverList

/-- checkSignificantChanges of the client: walk the current table, skip
cities with no previous bundle, emit the per-city toasts in table order. -/
def checkSignificantChanges (curr prev : PriceStore) : List Notification :=
  curr.foldr
    (fun e acc =>
      match assocLookup prev e.1 with
      | none => acc
      | some p => cityNotifications e.2 p ++ acc)
    []

/-- handlePriceUpdate of the client: save the old table as previousPrices,
adopt the incoming snapshot, append chart points, and return the
significant-change toasts computed from the new pair of tables. -/
def handlePriceUpdate (st : ClientState) (incoming : PriceStore)
    (label : String) : ClientState × List Notification :=
  let st1 := { st with previousPrices := st.allPrices, allPrices := incoming }
  let st2 := updateChartData st1 label
  (st2, checkSignificantChanges st2.allPrices st2.previousPrices)

/-- The maxRetries constant of the client constructor. -/
def maxRetries : ℕ := 5

/-- handleReconnection of the client, as a function of the current
retryCount: when below maxRetries it schedules one reconnection attempt
after 2 to the retryCount seconds and increments the counter (returning
some of delay milliseconds and new counter); otherwise it schedules
nothing and only shows the give-up toast (returning none). -/
def handleReconnection (retryCount : ℕ) : Option (ℕ × ℕ) :=
  if retryCount < maxRetries then some (2 ^ retryCount * 1000, retryCount + 1)
  else none

/-- Client retry counter after n consecutive failed connection cycles
starting from a fresh connection (retryCount 0), every attempt failing:
each disconnect invokes handleReconnection on the current counter. -/
def retryCountAfterFailures : ℕ → ℕ
  | 0 => 0
  | n + 1 =>
    match handleReconnection (retryCountAfterFailures n) with
    | some (_, c) => c
    | none => retryCountAfterFailures n

/-- Whether the disconnect event after n consecutive failures schedules a
further automatic reconnection attempt. -/
def attemptScheduled (n : ℕ) : Bool :=
  (handleReconnection (retryCountAfterFailures n)).isSome

/-- Client filter state: the three controls read by applyFilters. An empty
string is the inactive (falsy) value of each control. -/
structure FilterState where
  cityFilter : String
  metalFilter : String
  searchTerm : String

/-- The city-dropdown predicate of applyFilters. -/
def passesCityFilter (cityFilter cityId : String) : Bool :=
  cityFilter = "" || cityId = cityFilter

/-- The search predicate of applyFilters: lower-cased city or state name
contains the (already lower-cased) search term. -/
def passesSearch (searchTerm : String) (c : City) : Bool :=
  searchTerm = ""
    || strIncludes (jsToLower c.name) searchTerm
    || strIncludes (jsToLower c.state) searchTerm

/-- applyFilters of the client: rebuild filteredData as the entries of the
full table passing the city and search predicates. The metal dropdown is
not an entry predicate: applyFilters only forwards it to the renderer. -/
def applyFilters (fs : FilterState) (allPrices : PriceStore) : PriceStore :=
  let searchTerm := jsToLower fs.searchTerm
  allPrices.filter fun e =>
    passesCityFilter fs.cityFilter e.1 && passesSearch searchTerm e.2.cityInfo

/-- One rendered city card: the projected bundle and which metal sections
are visible under the metal dropdown (renderMetalSection returns an empty
section when the metal filter is active and names the other metal). -/
structure CityCard where
  bundle : CityPriceBundle
  showGold : Bool
  showSilver : Bool
deriving DecidableEq

/-- createCityCard of the client, projected to the fields the claims are
about: one display unit per city bundle. -/
def createCityCard (b : CityPriceBundle) (metalFilter : String) : CityCard :=
  { bundle := b
  , showGold := metalFilter = "" || metalFilter = "gold"
  , showSilver := metalFilter = "" || metalFilter = "silver" }

/-- Insertion step of the name sort applied before rendering. -/
def insertByName (b : CityPriceBundle) :
    List CityPriceBundle → List CityPriceBundle
  | [] => [b]
  | c :: rest =>
    if b.cityInfo.name ≤ c.cityInfo.name then b :: c :: rest
    else c :: insertByName b rest

/-- Ascending sort by city display name (the localeCompare sort of
renderPriceGrid, modelled as lexicographic string order). -/
def sortByName (l : List CityPriceBundle) : List CityPriceBundle :=
  l.foldr insertByName []

/-- renderPriceGrid of the client: render filteredData when it is
non-empty, else fall back to the full table; sort by display name and
project one card per entry. -/
def renderPriceGrid (filteredData allPrices : PriceStore)
    (metalFilter : String) : List CityCard :=
  let dataToRender := if filteredData.length > 0 then filteredData else allPrices
  (sortByName (dataToRender.map Prod.snd)).map fun b => createCityCard b metalFilter

/-- Whether a stored gold price can be produced from the previous one by
one gold step of the random-walk fallback, for some Math.random draw. -/
def simReachableGold (prev next : ℤ) : Prop :=
  ∃ r : ℚ, 0 ≤ r ∧ r ≤ 1 ∧ simGoldStep prev r = next

/-- Concrete city record used by the scenario fixtures. -/
def mumbaiCity : City := ⟨"mumbai", "Mumbai", "Maharashtra"⟩

/-- Scenario snapshot A bundle: mumbai with gold 24k at 107610. -/
def bundleA : CityPriceBundle :=
  { cityInfo := mumbaiCity
  , gold := ⟨107610, 98634, 80682⟩
  , silver := ⟨126480, 116892⟩
  , lastUpdated := 0
  , trendGold := .stable
  , trendSilver := .stable }

/-- Scenario snapshot B bundle: mumbai with gold 24k at 108500. -/
def bundleB : CityPriceBundle :=
  { bundleA with gold := ⟨108500, 98634, 80682⟩, lastUpdated := 10 }

/-- Scenario snapshot A store. -/
def storeA : PriceStore := [("mumbai", bundleA)]

/-- Scenario snapshot B store. -/
def storeB : PriceStore := [("mumbai", bundleB)]

/-- A scheduler state on the live path holding snapshot A. -/
def schedLive : SchedulerState := ⟨true, none, storeA⟩

/-- Fallback draws all fixed at one half (centre of every range). -/
def fbHalf : FallbackDraws := ⟨1/2, 1/2, 1/2, 1/2, 1/2, 1/2⟩

/-- Simulated-tick draws all fixed at one half, trends stable. -/
def simHalf : SimDraws :=
  ⟨fun _ _ => 1/2, fun _ _ => 1/2, fun _ => .stable, fun _ => .stable⟩

/-- A raw upstream gold record with a tiny but strictly positive price. -/
def tinyGoldItem : MCXItem :=
  ⟨"GOLD", some (1/10), none, none, none, none, none, none, none⟩

/-- A client state currently holding snapshot A (previous also A). -/
def clientA : ClientState :=
  ⟨storeA, storeA, initialChartSeries, initialChartSeries, 0⟩

/-- A filter state whose search term matches no city. -/
def fsNoMatch : FilterState := ⟨"", "", "xyz"⟩

/-- Startup draws all fixed at one half, trends stable. -/
def initHalf : InitDraws :=
  ⟨fun _ _ => 1/2, fun _ _ => 1/2, fun _ => .stable, fun _ => .stable⟩

/-- A parsed silver quote whose last traded price equals the silver 999
base price of the synthetic table, for comparing the two derivation paths. -/
def silverQuote124000 : Quote :=
  ⟨"SILVER", 124000, 0, 0, 0, 0, 0, 0, 0, 0⟩

theorem jsRound_eq_floor (q : ℚ) : jsRound q = ⌊q + 1/2⌋ := by
  unfold jsRound
  rw [Rat.floor_def' (q + 1/2), Rat.floor_def]

theorem jsRound_eq_of (q : ℚ) (n : ℤ) (h1 : (n : ℚ) ≤ q + 1/2)
    (h2 : q + 1/2 < n + 1) : jsRound q = n := by
  rw [jsRound_eq_floor]
  exact Int.floor_eq_iff.mpr ⟨h1, h2⟩

theorem jsRound_le_jsRound {a b : ℚ} (h : a ≤ b) : jsRound a ≤ jsRound b := by
  rw [jsRound_eq_floor, jsRound_eq_floor]
  exact Int.floor_le_floor (by linarith)

theorem jsRound_pos {q : ℚ} (h : 1/2 ≤ q) : 0 < jsRound q := by
  rw [jsRound_eq_floor]
  have h1 : (1 : ℤ) ≤ ⌊q + 1/2⌋ := Int.le_floor.mpr (by push_cast; linarith)
  omega

theorem getD_assocLookup_prop {β : Type} {P : β → Prop} (l : List (String × β))
    (k : String) (d : β) (hall : ∀ e ∈ l, P e.2) (hd : P d) :
    P ((assocLookup l k).getD d) := by
  induction l with
  | nil => exact hd
  | cons e rest ih =>
    simp only [assocLookup]
    split_ifs
    · exact hall e (List.mem_cons_self e rest)
    · exact ih fun x hx => hall x (List.mem_cons_of_mem e hx)

theorem cityVariation_bounds (s : String) :
    49/50 ≤ cityVariation s ∧ cityVariation s ≤ 41/40 := by
  unfold cityVariation
  refine getD_assocLookup_prop (P := fun q => 49/50 ≤ q ∧ q ≤ 41/40)
    cityVariations s 1 ?_ (by norm_num)
  intro e he
  simp only [cityVariations, List.mem_cons, List.not_mem_nil, or_false] at he
  rcases he with rfl|rfl|rfl|rfl|rfl|rfl|rfl|rfl|rfl|rfl <;> norm_num

theorem getCityMultiplier_bounds (s : String) :
    197/200 ≤ getCityMultiplier s ∧ getCityMultiplier s ≤ 103/100 := by
  unfold getCityMultiplier
  refine getD_assocLookup_prop (P := fun q => 197/200 ≤ q ∧ q ≤ 103/100)
    cityMultipliers s 1 ?_ (by norm_num)
  intro e he
  simp only [cityMultipliers, List.mem_cons, List.not_mem_nil, or_false] at he
  rcases he with
    rfl|rfl|rfl|rfl|rfl|rfl|rfl|rfl|rfl|rfl|rfl|rfl|rfl|rfl|rfl|rfl|rfl|rfl|rfl|rfl <;>
    norm_num

theorem assocLookup_map_of_mem {β : Type} (f : City → β) (cities : List City)
    (h : (cities.map City.id).Nodup) (c : City) (hc : c ∈ cities) :
    assocLookup (cities.map fun x => (x.id, f x)) c.id = some (f c) := by
  induction cities with
  | nil => cases hc
  | cons hd tl ih =>
    simp only [List.map_cons, assocLookup]
    rcases List.mem_cons.mp hc with rfl | htl
    · simp
    · have hne : c.id ≠ hd.id := by
        intro he
        have : hd.id ∈ tl.map City.id := he ▸ List.mem_map_of_mem City.id htl
        exact (List.nodup_cons.mp h).1 this
      rw [if_neg hne]
      exact ih (List.nodup_cons.mp h).2 htl

theorem assocLookup_eq_none_of_not_mem {β : Type} (l : List (String × β))
    (k : String) (h : k ∉ l.map Prod.fst) : assocLookup l k = none := by
  induction l with
  | nil => rfl
  | cons e rest ih =>
    simp only [List.map_cons, List.mem_cons] at h
    push_neg at h
    simp only [assocLookup, if_neg h.1]
    exact ih h.2

theorem metro_ids_nodup : (METRO_CITIES.map City.id).Nodup := by decide

theorem initializePrices_keys (bp : BasePrices) (d : InitDraws) (now : ℕ) :
    (initializePrices bp d now).map Prod.fst = METRO_CITIES.map City.id := by
  simp [initializePrices]

theorem insertByName_length (b : CityPriceBundle) (l : List CityPriceBundle) :
    (insertByName b l).length = l.length + 1 := by
  induction l with
  | nil => rfl
  | cons c rest ih =>
    simp only [insertByName]
    split_ifs <;> simp [ih]

theorem sortByName_length (l : List CityPriceBundle) :
    (sortByName l).length = l.length := by
  unfold sortByName
  induction l with
  | nil => rfl
  | cons c rest ih => simp [List.foldr_cons, insertByName_length, ih]

/-- C1 (amended): every synthetic derivation path keeps prices strictly
positive given base or previous prices of at least one currency unit and
any random draw in the unit interval, and the live-quote conversion keeps
prices strictly positive given a last traded price of at least one
currency unit; the fallback quote tables are positive as well. (As stated
the claim fails: the live conversion can round a small positive last
traded price down to zero, see the counterexample.) -/
theorem C1_amended :
    (∀ (basePrice : ℚ) (cityId : String) (r : ℚ),
        1 ≤ basePrice → 0 ≤ r → r ≤ 1 →
        0 < generateCityPrice basePrice cityId r) ∧
    (∀ (prev : ℤ) (r : ℚ), 1 ≤ prev → 0 ≤ r → r ≤ 1 →
        0 < simGoldStep prev r) ∧
    (∀ (prev : ℤ) (r : ℚ), 1 ≤ prev → 0 ≤ r → r ≤ 1 →
        0 < simSilverStep prev r) ∧
    (∀ (q : Quote) (cityId : String), 1 ≤ q.ltp →
        0 < (calculateGoldPrices (some q) cityId).k24 ∧
        0 < (calculateGoldPrices (some q) cityId).k22 ∧
        0 < (calculateGoldPrices (some q) cityId).k18) ∧
    (∀ (q : Quote) (cityId : String), 1 ≤ q.ltp →
        0 < (calculateSilverPrices (some q) cityId).s999 ∧
        0 < (calculateSilverPrices (some q) cityId).s925) ∧
    (∀ cityId : String,
        0 < (getFallbackGoldPrices cityId).k24 ∧
        0 < (getFallbackGoldPrices cityId).k22 ∧
        0 < (getFallbackGoldPrices cityId).k18 ∧
        0 < (getFallbackSilverPrices cityId).s999 ∧
        0 < (getFallbackSilverPrices cityId).s925) := by
  have hvb := cityVariation_bounds
  have hmb := getCityMultiplier_bounds
  refine ⟨?_, ?_, ?_, ?_, ?_, ?_⟩
  · intro basePrice cityId r hb hr0 hr1
    apply jsRound_pos
    have h1 := (hvb cityId).1
    have h2 := (hvb cityId).2
    nlinarith [mul_nonneg (sub_nonneg.mpr hb) (sub_nonneg.mpr h1)]
  · intro prev r hp hr0 hr1
    apply jsRound_pos
    have hp1 : (1 : ℚ) ≤ (prev : ℚ) := by exact_mod_cast hp
    nlinarith
  · intro prev r hp hr0 hr1
    apply jsRound_pos
    have hp1 : (1 : ℚ) ≤ (prev : ℚ) := by exact_mod_cast hp
    nlinarith
  · intro q cityId hl
    have hne : ¬ q.ltp = 0 := by intro h; rw [h] at hl; norm_num at hl
    have h1 := (hmb cityId).1
    simp only [calculateGoldPrices, if_neg hne]
    refine ⟨jsRound_pos ?_, jsRound_pos ?_, jsRound_pos ?_⟩ <;>
      nlinarith [mul_nonneg (sub_nonneg.mpr hl) (sub_nonneg.mpr h1)]
  · intro q cityId hl
    have hne : ¬ q.ltp = 0 := by intro h; rw [h] at hl; norm_num at hl
    have h1 := (hmb cityId).1
    simp only [calculateSilverPrices, if_neg hne]
    refine ⟨jsRound_pos ?_, jsRound_pos ?_⟩ <;>
      nlinarith [mul_nonneg (sub_nonneg.mpr hl) (sub_nonneg.mpr h1)]
  · intro cityId
    have h1 := (hmb cityId).1
    unfold getFallbackGoldPrices getFallbackSilverPrices
    refine ⟨jsRound_pos ?_, jsRound_pos ?_, jsRound_pos ?_, jsRound_pos ?_,
      jsRound_pos ?_⟩ <;> nlinarith

/-- C1 (counterexample): a live tick whose upstream array carries a gold
record with the strictly positive last traded price one tenth stores a
zero 18k gold price for mumbai, so a derivation path does produce a
non-positive price from a positive input. -/
theorem C1_counterexample :
    (0 : ℚ) < tinyGoldItem.ltp.getD 0 ∧
    ((assocLookup
        (updatePricesFromMCX schedLive (.ok [tinyGoldItem]) fbHalf simHalf 10).state.currentPrices
        ("mumbai")).map fun b => b.gold.k18) = some 0 := by
  constructor
  · norm_num [tinyGoldItem]
  · have hparse : parseMCXData [tinyGoldItem] 10
        = ⟨some (quoteOfItem tinyGoldItem 10), none⟩ := rfl
    have hconv : (updatePricesFromMCX schedLive (.ok [tinyGoldItem]) fbHalf simHalf 10).state.currentPrices
        = convertToLocationPrices ⟨some (quoteOfItem tinyGoldItem 10), none⟩ METRO_CITIES 10 := by
      simp [updatePricesFromMCX, fetchLiveData, hparse]
    have hlook : assocLookup
        (convertToLocationPrices ⟨some (quoteOfItem tinyGoldItem 10), none⟩ METRO_CITIES 10)
        ("mumbai")
        = some (convertBundle ⟨some (quoteOfItem tinyGoldItem 10), none⟩ mumbaiCity 10) := by
      have h := assocLookup_map_of_mem
        (fun c => convertBundle ⟨some (quoteOfItem tinyGoldItem 10), none⟩ c 10)
        METRO_CITIES metro_ids_nodup mumbaiCity (by decide)
      simpa [convertToLocationPrices] using h
    have hltp : (quoteOfItem tinyGoldItem 10).ltp = 1/10 := rfl
    have hk18 : (convertBundle ⟨some (quoteOfItem tinyGoldItem 10), none⟩ mumbaiCity 10).gold.k18 = 0 := by
      have hne : ¬ (quoteOfItem tinyGoldItem 10).ltp = 0 := by rw [hltp]; norm_num
      simp only [convertBundle, calculateGoldPrices, if_neg hne]
      rw [hltp]
      have hm : getCityMultiplier ("mumbai") = 1.025 := rfl
      show jsRound (1/10 * (18/23.88) * getCityMultiplier (mumbaiCity.id)) = 0
      rw [show mumbaiCity.id = "mumbai" from rfl, hm]
      exact jsRound_eq_of _ 0 (by norm_num) (by norm_num)
    rw [hconv, hlook]
    simp [hk18]

/-- C1 (witness): the amended positivity theorem applied at the concrete
gold 24k base price, mumbai, the centred jitter draw, at a previous gold
price of 107610, and at a live quote of 105200. -/
theorem C1_witness :
    0 < generateCityPrice 105500 ("mumbai") (1/2) ∧
    0 < simGoldStep 107610 (1/2) ∧
    0 < (calculateGoldPrices (some silverQuote124000) ("mumbai")).k24 := by
  refine ⟨C1_amended.1 105500 ("mumbai") (1/2) (by norm_num) (by norm_num) (by norm_num),
    C1_amended.2.1 107610 (1/2) (by norm_num) (by norm_num) (by norm_num),
    (C1_amended.2.2.2.1 silverQuote124000 ("mumbai") ?_).1⟩
  show (1 : ℚ) ≤ (124000 : ℚ)
  norm_num

/-- C2: the synthetic derivation is the pure function rounding basePrice
times city multiplier times jitter, where the jitter factor is
0.995 + r * 0.01 for the random draw r; the draw one half makes the jitter
exactly 1.0, and then gold 24k base 105500 in mumbai (multiplier 1.02)
derives to 107610. -/
theorem C2_theorem :
    (∀ (basePrice : ℚ) (cityId : String) (r : ℚ),
        generateCityPrice basePrice cityId r
          = jsRound (basePrice * cityVariation cityId * (0.995 + r * 0.01))) ∧
    (0.995 + (1/2 : ℚ) * 0.01 = 1) ∧
    cityVariation ("mumbai") = 1.02 ∧
    generateCityPrice 105500 ("mumbai") (1/2) = 107610 := by
  refine ⟨fun _ _ _ => rfl, by norm_num, rfl, ?_⟩
  unfold generateCityPrice
  rw [show cityVariation ("mumbai") = 1.02 from rfl]
  exact jsRound_eq_of _ 107610 (by norm_num) (by norm_num)

/-- C3 (amended): when the upstream fetch fails in transport (for example
times out) on a fast tick of the live path, fetchLiveData substitutes the
built-in fallback quotes, so the tick still rebuilds every city bundle
(fresh lastUpdated) and still broadcasts a snapshot; but it does so
through the live-conversion path, not the random-walk mutation, which
runs only when the fetched data carries neither a gold nor a silver
quote. -/
theorem C3_amended :
    ∀ (st : SchedulerState) (fb : FallbackDraws) (d : SimDraws) (now : ℕ),
      st.useMCXData = true →
      ((updatePrices st .transportError fb d now).broadcast = true ∧
       (updatePrices st .transportError fb d now).state.currentPrices
         = convertToLocationPrices (getFallbackData fb now) METRO_CITIES now ∧
       (∀ c ∈ METRO_CITIES,
          assocLookup (updatePrices st .transportError fb d now).state.currentPrices c.id
            = some (convertBundle (getFallbackData fb now) c now) ∧
          (convertBundle (getFallbackData fb now) c now).lastUpdated = now)) ∧
      (∀ items : List MCXItem,
          (parseMCXData items now).gold = none →
          (parseMCXData items now).silver = none →
          (updatePrices st (.ok items) fb d now).state.currentPrices
            = updatePricesSimulated st.currentPrices d now ∧
          (updatePrices st (.ok items) fb d now).broadcast = true) := by
  intro st fb d now hmcx
  have hlive : updatePrices st .transportError fb d now
      = updatePricesFromMCX st .transportError fb d now := by
    unfold updatePrices
    rw [if_pos hmcx]
  have hfb : fetchLiveData .transportError fb now = getFallbackData fb now := rfl
  have hbr : updatePricesFromMCX st .transportError fb d now
      = { state := { st with currentPrices :=
            convertToLocationPrices (getFallbackData fb now) METRO_CITIES now }
        , broadcast := true } := by
    unfold updatePricesFromMCX
    rw [hfb]
    simp [getFallbackData]
  refine ⟨⟨by rw [hlive, hbr], by rw [hlive, hbr], ?_⟩, ?_⟩
  · intro c hc
    rw [hlive, hbr]
    constructor
    · have h := assocLookup_map_of_mem (fun x => convertBundle (getFallbackData fb now) x now)
        METRO_CITIES metro_ids_nodup c hc
      simpa [convertToLocationPrices] using h
    · rfl
  · intro items hg hs
    have hok : updatePrices st (.ok items) fb d now
        = updatePricesFromMCX st (.ok items) fb d now := by
      unfold updatePrices
      rw [if_pos hmcx]
    have hdata : fetchLiveData (.ok items) fb now = parseMCXData items now := rfl
    constructor
    · rw [hok]
      simp [updatePricesFromMCX, hdata, hg, hs]
    · rw [hok]
      simp [updatePricesFromMCX, hdata, hg, hs]

/-- C3 (counterexample): on the centred fallback draws, a transport-failed
tick from a store holding mumbai gold 24k 107610 stores 108372 for mumbai,
a value the random-walk mutation (at most two tenths of a percent around
the previous price) cannot produce from 107610 for any draw in the unit
interval, refuting that the fallback on a failed fetch is the incremental
random-walk mutation. -/
theorem C3_counterexample :
    ((assocLookup schedLive.currentPrices ("mumbai")).map fun b => b.gold.k24)
      = some 107610 ∧
    ((assocLookup (updatePrices schedLive .transportError fbHalf simHalf 10).state.currentPrices
        ("mumbai")).map fun b => b.gold.k24) = some 108372 ∧
    ¬ simReachableGold 107610 108372 := by
  refine ⟨rfl, ?_, ?_⟩
  · have hlive : (updatePrices schedLive .transportError fbHalf simHalf 10).state.currentPrices
        = convertToLocationPrices (getFallbackData fbHalf 10) METRO_CITIES 10 := by
      unfold updatePrices
      rw [if_pos (show schedLive.useMCXData = true from rfl)]
      unfold updatePricesFromMCX
      simp [fetchLiveData, getFallbackData]
    have hlook : assocLookup
        (convertToLocationPrices (getFallbackData fbHalf 10) METRO_CITIES 10) ("mumbai")
        = some (convertBundle (getFallbackData fbHalf 10) mumbaiCity 10) := by
      have h := assocLookup_map_of_mem (fun x => convertBundle (getFallbackData fbHalf 10) x 10)
        METRO_CITIES metro_ids_nodup mumbaiCity (by decide)
      simpa [convertToLocationPrices] using h
    have hltp : ((getFallbackData fbHalf 10).gold.map Quote.ltp).getD 0
        = 105200 + (1/2 - 0.5) * 1000 := rfl
    have hk24 : (convertBundle (getFallbackData fbHalf 10) mumbaiCity 10).gold.k24 = 108372 := by
      have hne : ¬ (105200 + ((1:ℚ)/2 - 0.5) * 1000 = 0) := by norm_num
      show (calculateGoldPrices (getFallbackData fbHalf 10).gold mumbaiCity.id).k24 = 108372
      simp only [getFallbackData, fbHalf, calculateGoldPrices]
      rw [if_neg hne]
      show jsRound ((105200 + ((1:ℚ)/2 - 0.5) * 1000) * (24/23.88)
        * getCityMultiplier (mumbaiCity.id)) = 108372
      rw [show getCityMultiplier (mumbaiCity.id) = 1.025 from rfl]
      exact jsRound_eq_of _ 108372 (by norm_num) (by norm_num)
    rw [hlive, hlook]
    simp [hk24]
  · rintro ⟨r, hr0, hr1, heq⟩
    have hub : simGoldStep 107610 r ≤ 107825 := by
      have harg : (107610 : ℚ) * (1 + (r - 0.5) * 0.004)
          ≤ 107610 * (1 + (1 - 0.5) * 0.004) := by nlinarith
      have := jsRound_le_jsRound harg
      have hval : jsRound ((107610 : ℚ) * (1 + ((1:ℚ) - 0.5) * 0.004)) = 107825 :=
        jsRound_eq_of _ 107825 (by norm_num) (by norm_num)
      rw [hval] at this
      unfold simGoldStep
      push_cast
      exact this
    omega

/-- C3 (witness): the amended fallback theorem applied at the concrete
live-path state holding snapshot A, centred draws, tick time 10. -/
theorem C3_witness :
    (updatePrices schedLive .transportError fbHalf simHalf 10).broadcast = true ∧
    assocLookup (updatePrices schedLive .transportError fbHalf simHalf 10).state.currentPrices
        (mumbaiCity.id)
      = some (convertBundle (getFallbackData fbHalf 10) mumbaiCity 10) ∧
    (convertBundle (getFallbackData fbHalf 10) mumbaiCity 10).lastUpdated = 10 := by
  have h := C3_amended schedLive fbHalf simHalf 10 rfl
  exact ⟨h.1.1, (h.1.2.2 mumbaiCity (by decide)).1, (h.1.2.2 mumbaiCity (by decide)).2⟩

/-- C4 (amended): the 5-minute cooldown (useMCXData cleared and the
re-enable setTimeout of 300000 milliseconds scheduled) is triggered
exactly by a fetch result carrying neither a gold nor a silver quote; a
transport failure of the fetch itself is masked by the built-in fallback
quotes and leaves the live source enabled with no timer scheduled. -/
theorem C4_amended :
    (∀ (st : SchedulerState) (fb : FallbackDraws) (d : SimDraws) (now : ℕ)
        (items : List MCXItem),
        (parseMCXData items now).gold = none →
        (parseMCXData items now).silver = none →
        (updatePricesFromMCX st (.ok items) fb d now).state.useMCXData = false ∧
        (updatePricesFromMCX st (.ok items) fb d now).state.mcxReenableDelay
          = some (5 * 60 * 1000)) ∧
    (∀ (st : SchedulerState) (fb : FallbackDraws) (d : SimDraws) (now : ℕ),
        (updatePricesFromMCX st .transportError fb d now).state.useMCXData
          = st.useMCXData ∧
        (updatePricesFromMCX st .transportError fb d now).state.mcxReenableDelay
          = st.mcxReenableDelay) ∧
    (∀ (st : SchedulerState) (fb : FallbackDraws) (d : SimDraws) (now : ℕ)
        (o : FetchOutcome),
        ((fetchLiveData o fb now).gold.isSome ∨ (fetchLiveData o fb now).silver.isSome) →
        (updatePricesFromMCX st o fb d now).state.useMCXData = st.useMCXData) := by
  refine ⟨?_, ?_, ?_⟩
  · intro st fb d now items hg hs
    have hdata : fetchLiveData (.ok items) fb now = parseMCXData items now := rfl
    constructor
    · simp [updatePricesFromMCX, hdata, hg, hs]
    · simp [updatePricesFromMCX, hdata, hg, hs]
  · intro st fb d now
    have hdata : fetchLiveData .transportError fb now = getFallbackData fb now := rfl
    constructor
    · simp [updatePricesFromMCX, hdata, getFallbackData]
    · simp [updatePricesFromMCX, hdata, getFallbackData]
  · intro st fb d now o hq
    unfold updatePricesFromMCX
    rcases hq with h | h <;> simp [h]

/-- C4 (counterexample): a transport-failed (timed-out) live fetch leaves
useMCXData true and schedules no re-enable timer, refuting that every
failed live-source fetch disables the live source for the cooldown. -/
theorem C4_counterexample :
    schedLive.useMCXData = true ∧
    (updatePricesFromMCX schedLive .transportError fbHalf simHalf 10).state.useMCXData = true ∧
    (updatePricesFromMCX schedLive .transportError fbHalf simHalf 10).state.mcxReenableDelay
      = none := by
  refine ⟨rfl, ?_, ?_⟩ <;>
    simp [updatePricesFromMCX, fetchLiveData, getFallbackData, schedLive]

/-- C4 (witness): the amended cooldown theorem applied at the concrete
state and an upstream array with no commodity records. -/
theorem C4_witness :
    (updatePricesFromMCX schedLive (.ok []) fbHalf simHalf 10).state.useMCXData = false ∧
    (updatePricesFromMCX schedLive (.ok []) fbHalf simHalf 10).state.mcxReenableDelay
      = some (5 * 60 * 1000) ∧
    (updatePricesFromMCX schedLive .transportError fbHalf simHalf 10).state.useMCXData
      = schedLive.useMCXData := by
  refine ⟨(C4_amended.1 schedLive fbHalf simHalf 10 [] rfl rfl).1,
    (C4_amended.1 schedLive fbHalf simHalf 10 [] rfl rfl).2,
    (C4_amended.2.1 schedLive fbHalf simHalf 10).1⟩

/-- C5: on every subsequent snapshot the client saves the old table as
previousPrices before adopting the incoming one, the emitted toasts are
computed from exactly that pair, a per-city toast for a commodity fires
exactly when the relative change of its reference purity (gold 24k,
silver 999) strictly exceeds 0.005 (for positive previous prices), and
the concrete scenario snapshot
A (mumbai gold 24k 107610) followed by snapshot B (108500) fires a gold
increase toast for Mumbai. -/
theorem C5_theorem :
    (∀ (st : ClientState) (incoming : PriceStore) (label : String),
        (handlePriceUpdate st incoming label).1.previousPrices = st.allPrices ∧
        (handlePriceUpdate st incoming label).1.allPrices = incoming ∧
        (handlePriceUpdate st incoming label).2
          = checkSignificantChanges incoming st.allPrices) ∧
    (∀ current previous : CityPriceBundle,
        0 < previous.gold.k24 →
        ((∃ n ∈ cityNotifications current previous, n.metal = Metal.gold) ↔
          |(current.gold.k24 : ℚ) - (previous.gold.k24 : ℚ)| / (previous.gold.k24 : ℚ)
            > 0.005)) ∧
    (∀ current previous : CityPriceBundle,
        0 < previous.silver.s999 →
        ((∃ n ∈ cityNotifications current previous, n.metal = Metal.silver) ↔
          |(current.silver.s999 : ℚ) - (previous.silver.s999 : ℚ)| / (previous.silver.s999 : ℚ)
            > 0.005)) ∧
    Notification.mk ("Mumbai") Metal.gold true
      ∈ (handlePriceUpdate clientA storeB ("t")).2 := by
  have hcore : ∀ (st : ClientState) (incoming : PriceStore) (label : String),
      (handlePriceUpdate st incoming label).1.previousPrices = st.allPrices ∧
      (handlePriceUpdate st incoming label).1.allPrices = incoming ∧
      (handlePriceUpdate st incoming label).2
        = checkSignificantChanges incoming st.allPrices := by
    intro st incoming label
    unfold handlePriceUpdate updateChartData
    by_cases h : List.length incoming = 0 <;> simp [h]
  refine ⟨hcore, ?_, ?_, ?_⟩
  · intro current previous hpos
    unfold cityNotifications
    by_cases hg : |(current.gold.k24 : ℚ) - (previous.gold.k24 : ℚ)|
        / (previous.gold.k24 : ℚ) > 0.005 <;>
      by_cases hs : |(current.silver.s999 : ℚ) - (previous.silver.s999 : ℚ)|
          / (previous.silver.s999 : ℚ) > 0.005 <;>
      simp [hg, hs]
  · intro current previous hpos
    unfold cityNotifications
    by_cases hg : |(current.gold.k24 : ℚ) - (previous.gold.k24 : ℚ)|
        / (previous.gold.k24 : ℚ) > 0.005 <;>
      by_cases hs : |(current.silver.s999 : ℚ) - (previous.silver.s999 : ℚ)|
          / (previous.silver.s999 : ℚ) > 0.005 <;>
      simp [hg, hs]
  · have h2 : (handlePriceUpdate clientA storeB ("t")).2
        = checkSignificantChanges storeB storeA := by
      have h := hcore clientA storeB ("t")
      rw [h.2.2]
      rfl
    have h3 : checkSignificantChanges storeB storeA
        = cityNotifications bundleB bundleA := by
      simp [checkSignificantChanges, storeA, storeB, assocLookup]
    have h4 : Notification.mk ("Mumbai") Metal.gold true
        ∈ cityNotifications bundleB bundleA := by
      norm_num [cityNotifications, bundleA, bundleB, mumbaiCity]
    rw [h2, h3]
    exact h4

/-- C5 (witness): the ordering and toast equations at the concrete
scenario states, and the per-city gold toast criterion applied to the
scenario bundles with their positive previous price. -/
theorem C5_witness :
    (handlePriceUpdate clientA storeB ("t")).1.previousPrices = clientA.allPrices ∧
    ((∃ n ∈ cityNotifications bundleB bundleA, n.metal = Metal.gold) ↔
      |(bundleB.gold.k24 : ℚ) - (bundleA.gold.k24 : ℚ)| / (bundleA.gold.k24 : ℚ)
        > 0.005) := by
  exact ⟨(C5_theorem.1 clientA storeB ("t")).1,
    C5_theorem.2.1 bundleB bundleA (by decide)⟩

theorem chartAppend_of_over (s : ChartSeries) (l : String) (p : ℤ)
    (h : (s.timestamps ++ [l]).length > s.maxPoints) :
    chartAppend s l p
      = { s with timestamps := (s.timestamps ++ [l]).tail
               , prices := (s.prices ++ [p]).tail } := by
  simp only [chartAppend]
  rw [if_pos h]

theorem chartAppend_of_within (s : ChartSeries) (l : String) (p : ℤ)
    (h : ¬ (s.timestamps ++ [l]).length > s.maxPoints) :
    chartAppend s l p
      = { s with timestamps := s.timestamps ++ [l]
               , prices := s.prices ++ [p] } := by
  simp only [chartAppend]
  rw [if_neg h]

/-- C6: a chart series with the configured cap 60 and consistent parallel
arrays never exceeds 60 entries under any sequence of appends, and once
the cap is reached one append evicts exactly the head entry of each array
and appends at the tail, preserving the relative order of survivors. -/
theorem C6_theorem :
    (∀ (init : ChartSeries) (appends : List (String × ℤ)),
        init.maxPoints = 60 →
        init.timestamps.length = init.prices.length →
        init.timestamps.length ≤ 60 →
        (appends.foldl (fun s a => chartAppend s a.1 a.2) init).timestamps.length ≤ 60 ∧
        (appends.foldl (fun s a => chartAppend s a.1 a.2) init).prices.length ≤ 60) ∧
    (∀ (s : ChartSeries) (label : String) (price : ℤ),
        s.maxPoints = 60 → s.timestamps.length = 60 → s.prices.length = 60 →
        chartAppend s label price
          = { s with timestamps := s.timestamps.tail ++ [label]
                   , prices := s.prices.tail ++ [price] }) := by
  have hstep : ∀ (s : ChartSeries) (a : String × ℤ),
      s.maxPoints = 60 → s.timestamps.length = s.prices.length →
      s.timestamps.length ≤ 60 →
      (chartAppend s a.1 a.2).maxPoints = 60 ∧
      (chartAppend s a.1 a.2).timestamps.length = (chartAppend s a.1 a.2).prices.length ∧
      (chartAppend s a.1 a.2).timestamps.length ≤ 60 := by
    intro s a h60 heq hle
    by_cases h : (s.timestamps ++ [a.1]).length > s.maxPoints
    · rw [chartAppend_of_over s a.1 a.2 h]
      simp only [List.length_append, List.length_cons, List.length_nil] at h
      simp only [List.length_tail, List.length_append, List.length_cons, List.length_nil]
      refine ⟨h60, by omega, by omega⟩
    · rw [chartAppend_of_within s a.1 a.2 h]
      simp only [List.length_append, List.length_cons, List.length_nil] at h
      simp only [List.length_append, List.length_cons, List.length_nil]
      refine ⟨h60, by omega, by omega⟩
  constructor
  · intro init appends
    induction appends generalizing init with
    | nil =>
      intro h60 heq hle
      exact ⟨hle, heq ▸ hle⟩
    | cons a rest ih =>
      intro h60 heq hle
      have h := hstep init a h60 heq hle
      simpa using ih (chartAppend init a.1 a.2) h.1 h.2.1 h.2.2
  · intro s label price h60 hts hps
    obtain ⟨ts, ps, mp⟩ := s
    simp only at h60 hts hps
    have hne : ts ≠ [] := by
      intro h
      rw [h] at hts
      simp at hts
    have hne2 : ps ≠ [] := by
      intro h
      rw [h] at hps
      simp at hps
    obtain ⟨t0, ts1, rfl⟩ := List.exists_cons_of_ne_nil hne
    obtain ⟨p0, ps1, rfl⟩ := List.exists_cons_of_ne_nil hne2
    have hcond : ((t0 :: ts1) ++ [label]).length > mp := by
      simp only [List.length_append, List.length_cons, List.length_nil] at hts ⊢
      omega
    rw [chartAppend_of_over _ _ _ hcond]
    simp

/-- C6 (witness): the cap theorem at the empty initial series with two
appends, and the eviction equation at a full series of sixty entries. -/
theorem C6_witness :
    ((([("a", (1:ℤ)), ("b", 2)] : List (String × ℤ)).foldl
        (fun s a => chartAppend s a.1 a.2) initialChartSeries).timestamps.length ≤ 60) ∧
    chartAppend ⟨List.replicate 60 ("x"), List.replicate 60 (0:ℤ), 60⟩ ("y") 7
      = ⟨(List.replicate 60 ("x")).tail ++ [("y")],
         (List.replicate 60 (0:ℤ)).tail ++ [7], 60⟩ := by
  refine ⟨(C6_theorem.1 initialChartSeries [("a", 1), ("b", 2)] rfl rfl (by decide)).1, ?_⟩
  exact C6_theorem.2 ⟨List.replicate 60 ("x"), List.replicate 60 (0:ℤ), 60⟩ ("y") 7
    rfl (by simp) (by simp)

/-- C7: reconnection delays start at 1000 milliseconds for the first
attempt and double with each retry, an attempt is scheduled exactly while
the counter is below maxRetries (5), and after five consecutive failed
cycles the counter sits at five and no disconnect event ever schedules a
further automatic attempt. -/
theorem C7_theorem :
    (∀ k, k < maxRetries → handleReconnection k = some (2 ^ k * 1000, k + 1)) ∧
    handleReconnection 0 = some (1000, 1) ∧
    (∀ k, 2 ^ (k + 1) * 1000 = 2 * (2 ^ k * 1000)) ∧
    (∀ k, maxRetries ≤ k → handleReconnection k = none) ∧
    (∀ n, retryCountAfterFailures n = min n maxRetries) ∧
    (∀ n, maxRetries ≤ n → attemptScheduled n = false) := by
  have hlt : ∀ k, k < maxRetries → handleReconnection k = some (2 ^ k * 1000, k + 1) := by
    intro k hk
    unfold handleReconnection
    rw [if_pos hk]
  have hge : ∀ k, maxRetries ≤ k → handleReconnection k = none := by
    intro k hk
    unfold handleReconnection
    rw [if_neg (by omega)]
  have hcount : ∀ n, retryCountAfterFailures n = min n maxRetries := by
    intro n
    induction n with
    | zero => simp [retryCountAfterFailures]
    | succ m ih =>
      unfold retryCountAfterFailures
      rw [ih]
      unfold handleReconnection
      by_cases hm : min m maxRetries < maxRetries
      · rw [if_pos hm]
        show min m maxRetries + 1 = min (m + 1) maxRetries
        simp only [maxRetries] at hm ⊢
        omega
      · rw [if_neg hm]
        show min m maxRetries = min (m + 1) maxRetries
        simp only [maxRetries] at hm ⊢
        omega
  refine ⟨hlt, hlt 0 (by norm_num [maxRetries]), fun k => by ring, hge, hcount, ?_⟩
  intro n hn
  unfold attemptScheduled
  rw [hcount, hge (min n maxRetries) (by simp only [maxRetries] at hn ⊢; omega)]
  rfl

/-- C7 (witness): concrete delays for the first and third attempts and
the absence of any scheduled attempt after the fifth and the eighth
consecutive failures. -/
theorem C7_witness :
    handleReconnection 0 = some (1000, 1) ∧
    handleReconnection 2 = some (4000, 3) ∧
    handleReconnection 5 = none ∧
    attemptScheduled 5 = false ∧
    attemptScheduled 8 = false := by
  refine ⟨C7_theorem.2.1, ?_, C7_theorem.2.2.2.1 5 (by decide), ?_, ?_⟩
  · have h := C7_theorem.1 2 (by decide)
    simpa using h
  · exact C7_theorem.2.2.2.2.2 5 (by decide)
  · exact C7_theorem.2.2.2.2.2 8 (by decide)

/-- C8: on a store built by initializePrices (whose keys are exactly the
city table), a read of an unknown city id yields the not-found response
and the unchanged store, and a known city id yields exactly that city
bundle, again with the store unchanged. -/
theorem C8_theorem :
    ∀ (bp : BasePrices) (d : InitDraws) (now : ℕ) (cityId : String),
      (getPricesByCityId (initializePrices bp d now) cityId).2
        = initializePrices bp d now ∧
      (cityId ∉ METRO_CITIES.map City.id →
        (getPricesByCityId (initializePrices bp d now) cityId).1
          = CityPricesResponse.notFound) ∧
      (∀ c ∈ METRO_CITIES, cityId = c.id →
        (getPricesByCityId (initializePrices bp d now) cityId).1
          = CityPricesResponse.ok (initBundle bp d now c)) := by
  intro bp d now cityId
  refine ⟨?_, ?_, ?_⟩
  · unfold getPricesByCityId
    cases assocLookup (initializePrices bp d now) cityId <;> rfl
  · intro hout
    have hnone : assocLookup (initializePrices bp d now) cityId = none := by
      apply assocLookup_eq_none_of_not_mem
      rw [initializePrices_keys]
      exact hout
    unfold getPricesByCityId
    rw [hnone]
  · intro c hc hid
    subst hid
    have hsome : assocLookup (initializePrices bp d now) c.id
        = some (initBundle bp d now c) := by
      have h := assocLookup_map_of_mem (initBundle bp d now) METRO_CITIES
        metro_ids_nodup c hc
      simpa [initializePrices] using h
    unfold getPricesByCityId
    rw [hsome]

/-- C8 (witness): the handler theorem at the concrete startup store, for
the unknown id unknowncity and for mumbai. -/
theorem C8_witness :
    (getPricesByCityId (initializePrices BASE_PRICES initHalf 0) ("unknowncity")).1
      = CityPricesResponse.notFound ∧
    (getPricesByCityId (initializePrices BASE_PRICES initHalf 0) ("unknowncity")).2
      = initializePrices BASE_PRICES initHalf 0 ∧
    (getPricesByCityId (initializePrices BASE_PRICES initHalf 0) ("mumbai")).1
      = CityPricesResponse.ok (initBundle BASE_PRICES initHalf 0 mumbaiCity) := by
  refine ⟨(C8_theorem BASE_PRICES initHalf 0 ("unknowncity")).2.1 (by decide),
    (C8_theorem BASE_PRICES initHalf 0 ("unknowncity")).1,
    (C8_theorem BASE_PRICES initHalf 0 ("mumbai")).2.2 mumbaiCity (by decide) rfl⟩

/-- C9 (amended): filteredData is exactly the set of entries passing the
city and search predicates (the metal dropdown is not an entry predicate
and never changes the filtered set), and the renderer projects one card
per filtered entry when the filtered view is non-empty but falls back to
the full table when the filtered view is empty, so an active filter
matching zero cities renders one card per stored city rather than zero. -/
theorem C9_amended :
    (∀ (fs : FilterState) (store : PriceStore) (e : String × CityPriceBundle),
        e ∈ applyFilters fs store ↔
          e ∈ store ∧ passesCityFilter fs.cityFilter e.1 = true ∧
          passesSearch (jsToLower fs.searchTerm) e.2.cityInfo = true) ∧
    (∀ (fs : FilterState) (m : String) (store : PriceStore),
        applyFilters ⟨fs.cityFilter, m, fs.searchTerm⟩ store = applyFilters fs store) ∧
    (∀ (filteredData allPrices : PriceStore) (m : String),
        (filteredData ≠ [] →
          (renderPriceGrid filteredData allPrices m).length = filteredData.length) ∧
        (filteredData = [] →
          (renderPriceGrid filteredData allPrices m).length = allPrices.length)) := by
  refine ⟨?_, ?_, ?_⟩
  · intro fs store e
    unfold applyFilters
    rw [List.mem_filter]
    simp [Bool.and_eq_true]
  · intro fs m store
    rfl
  · intro filteredData allPrices m
    constructor
    · intro hne
      unfold renderPriceGrid
      rw [if_pos (by
        cases filteredData with
        | nil => exact absurd rfl hne
        | cons a l => simp)]
      simp [sortByName_length]
    · intro hnil
      subst hnil
      unfold renderPriceGrid
      simp [sortByName_length]

/-- C9 (counterexample): with the store holding the single city mumbai and
an active search term xyz matching nothing, the filtered view is empty
and the renderer falls back to the full table, rendering one city card
instead of the zero cards the claim requires. -/
theorem C9_counterexample :
    fsNoMatch.searchTerm ≠ "" ∧
    applyFilters fsNoMatch storeA = [] ∧
    (renderPriceGrid (applyFilters fsNoMatch storeA) storeA
        fsNoMatch.metalFilter).length = 1 := by
  refine ⟨by decide, rfl, rfl⟩

/-- C9 (witness): the amended filter and renderer theorem at the concrete
no-match filter state and the one-city store. -/
theorem C9_witness :
    (("mumbai", bundleA) ∈ applyFilters ⟨"", "", ""⟩ storeA ↔
      ("mumbai", bundleA) ∈ storeA ∧ passesCityFilter ("") ("mumbai") = true ∧
      passesSearch (jsToLower ("")) bundleA.cityInfo = true) ∧
    (renderPriceGrid storeA storeA ("")).length = storeA.length ∧
    (renderPriceGrid ([] : PriceStore) storeA ("")).length = storeA.length := by
  refine ⟨?_, ?_, ?_⟩
  · have h := C9_amended.1 ⟨"", "", ""⟩ storeA ("mumbai", bundleA)
    simpa [storeA] using h
  · exact (C9_amended.2.2 storeA storeA ("")).1 (by decide)
  · exact (C9_amended.2.2 [] storeA ("")).2 rfl

/-- C10: the two derivation paths use different per-city multiplier
tables: the synthetic table lists exactly the first ten metro cities and
defaults the other ten (lucknow through vadodara) to 1.0, while the live
table lists all twenty with different values (mumbai 1.02 against 1.025);
from the same silver base price 124000 and jitter 1.0 the synthetic path
derives 126480 for mumbai while the live conversion derives 127100. -/
theorem C10_theorem :
    cityVariations.map Prod.fst
      = ["mumbai", "delhi", "bangalore", "kolkata", "chennai", "hyderabad",
         "pune", "ahmedabad", "jaipur", "surat"] ∧
    cityVariations.length = 10 ∧
    METRO_CITIES.length = 20 ∧
    cityMultipliers.map Prod.fst = METRO_CITIES.map City.id ∧
    cityMultipliers.length = 20 ∧
    (cityVariation ("lucknow") = 1 ∧ cityVariation ("kanpur") = 1 ∧
     cityVariation ("nagpur") = 1 ∧ cityVariation ("indore") = 1 ∧
     cityVariation ("thane") = 1 ∧ cityVariation ("bhopal") = 1 ∧
     cityVariation ("visakhapatnam") = 1 ∧ cityVariation ("pimpri") = 1 ∧
     cityVariation ("patna") = 1 ∧ cityVariation ("vadodara") = 1) ∧
    cityVariation ("mumbai") = 1.02 ∧
    getCityMultiplier ("mumbai") = 1.025 ∧
    generateCityPrice 124000 ("mumbai") (1/2) = 126480 ∧
    (calculateSilverPrices (some silverQuote124000) ("mumbai")).s999 = 127100 ∧
    (126480 : ℤ) ≠ 127100 := by
  refine ⟨by decide, by decide, by decide, by decide, by decide,
    ⟨rfl, rfl, rfl, rfl, rfl, rfl, rfl, rfl, rfl, rfl⟩, rfl, rfl, ?_, ?_, by decide⟩
  · unfold generateCityPrice
    rw [show cityVariation ("mumbai") = 1.02 from rfl]
    exact jsRound_eq_of _ 126480 (by norm_num) (by norm_num)
  · have hne : ¬ silverQuote124000.ltp = 0 := by
      show ¬ (124000 : ℚ) = 0
      norm_num
    simp only [calculateSilverPrices]
    rw [if_neg hne]
    show jsRound (silverQuote124000.ltp * getCityMultiplier ("mumbai")) = 127100
    rw [show getCityMultiplier ("mumbai") = 1.025 from rfl,
      show silverQuote124000.ltp = 124000 from rfl]
    exact jsRound_eq_of _ 127100 (by norm_num) (by norm_num)
